import Mathlib

/-!
Verification of the moderation-bot core of `main.py` (chat-moderation bot):
per-chat user roles, mute lifecycle, spam guard, and the report/escalation
policy.  The Python module-level dictionaries are modelled extensionally as
functions keyed by `(chat_id, user_id)` (an empty inner dict is identified
with an absent chat key, which is observationally equivalent in the source:
every read goes through `.get` with a default).  Wall-clock timestamps are
modelled as natural-number seconds.  Outbound SDK calls (delete message,
send message, kick member, direct message) are modelled as an emitted list
of `Effect`s and are assumed to succeed; the source logs and swallows their
failures.
-/

namespace ModBot

/-- Roles, from `main.py` lines 14-16. -/
inductive Role where
  | ADMIN
  | MODERATOR
  | USER
deriving DecidableEq, Repr

open Role

/-- Hardcoded bot owner id, `main.py` line 23. -/
def BOT_OWNER_ID : Nat := 123456789

/-- Spam-protection constants, `main.py` lines 27-29. -/
def MAX_MESSAGES_PER_WINDOW : Nat := 5
def RATE_LIMIT_WINDOW_SECONDS : Nat := 10
def SPAM_MUTE_DURATION_SECONDS : Nat := 300

/-- Forbidden keywords, `main.py` line 31. -/
def forbidden_keywords : List String := ["keyword1", "spamlink.com", "another_bad_word"]

/-- Report auto-action constants, `main.py` lines 37-39. -/
def REPORT_THRESHOLD_MUTE : Nat := 3
def REPORT_THRESHOLD_KICK : Nat := 5
def AUTO_MUTE_DURATION_ON_REPORTS : String := "2h"

/-- One stored report record (`main.py` lines 543-548); the reporter's
display name is irrelevant to the claims and omitted, the reason kept. -/
structure Report where
  reporter_id : Nat
  reason : String
  timestamp : Nat
deriving DecidableEq, Repr

/-- The mutable process state: the module-level dictionaries of `main.py`
(lines 19-20, 30, 34) plus the two toggle flags (lines 26, 40), modelled
extensionally. -/
structure BotState where
  user_roles : Nat → Nat → Option Role
  muted_users : Nat → Nat → Option Nat
  message_timestamps : Nat → Nat → List Nat
  user_reports : Nat → Nat → List Report
  spam_protection_enabled : Bool
  enable_auto_actions_on_reports : Bool

/-- The state at process start: all dictionaries empty, both flags true
(`main.py` lines 19-20, 26, 30, 34, 40). -/
def initialState : BotState where
  user_roles := fun _ _ => none
  muted_users := fun _ _ => none
  message_timestamps := fun _ _ => []
  user_reports := fun _ _ => []
  spam_protection_enabled := true
  enable_auto_actions_on_reports := true

/-- Pointwise update of a two-level map. -/
def upd2 {α : Type} (f : Nat → Nat → α) (c u : Nat) (v : α) : Nat → Nat → α :=
  fun c' u' => if c' = c ∧ u' = u then v else f c' u'

/-- `get_user_role` (`main.py` lines 44-46): stored role, defaulting to USER. -/
def get_user_role (s : BotState) (chat_id user_id : Nat) : Role :=
  (s.user_roles chat_id user_id).getD USER

/-- `is_admin` (`main.py` lines 48-50). -/
def is_admin (s : BotState) (chat_id user_id : Nat) : Bool :=
  get_user_role s chat_id user_id = ADMIN

/-- `is_moderator` (`main.py` lines 52-54): MODERATOR or ADMIN. -/
def is_moderator (s : BotState) (chat_id user_id : Nat) : Bool :=
  get_user_role s chat_id user_id = ADMIN ∨ get_user_role s chat_id user_id = MODERATOR

/-! ### Duration parsing (`main.py` lines 152-168)

`parse_duration` returns a `timedelta`; we model the result by its total
number of seconds.  Python's `str.isdigit` on the (non-empty) value part is
modelled as "every character is an ASCII decimal digit", and `int` on such
a string as the usual base-10 value. -/

/-- Base-10 value of a list of digit characters (Python `int` on an
`isdigit` string). -/
def str_to_nat (l : List Char) : Nat :=
  l.foldl (fun a c => 10 * a + (c.toNat - 48)) 0

/-- `parse_duration` (`main.py` lines 152-168), result in seconds:
`None` for strings shorter than 2 characters, a non-digit value part, or a
final character other than `m`/`h`/`d` after lowercasing. -/
def parse_duration (duration_str : String) : Option Nat :=
  if duration_str.data.length < 2 then none
  else if ¬ duration_str.data.dropLast.all Char.isDigit then none
  else if (duration_str.data.getLastD ' ').toLower = 'm' then
    some (60 * str_to_nat duration_str.data.dropLast)
  else if (duration_str.data.getLastD ' ').toLower = 'h' then
    some (3600 * str_to_nat duration_str.data.dropLast)
  else if (duration_str.data.getLastD ' ').toLower = 'd' then
    some (86400 * str_to_nat duration_str.data.dropLast)
  else none

/-! ### Inbound events and outbound effects

A handler consumes the update's reply-to user, its message entities and the
command arguments, and produces a new state together with a list of
outbound SDK calls.  The exact wording of outbound texts is represented by
tags; the per-admin direct-message fan-out of `report_user` (lines 563-566)
is abstracted to a single `notifyChatAdmins` effect, since the set of
admins is not observable through any claim. -/

/-- Message-entity kinds relevant to the handlers. -/
inductive EntityType where
  | mention
  | text_mention
  | other
deriving DecidableEq, Repr

/-- One parsed message entity: its kind, the covered text, and (for
`text_mention`) the linked user's id and username. -/
structure Entity where
  etype : EntityType
  text : String
  user_id : Nat
  username : String
deriving DecidableEq, Repr

/-- The parts of an inbound update the handlers consume: the replied-to
user (if the command is a reply), the message entities, and the
space-split command arguments. -/
structure MsgContext where
  reply_to_user : Option Nat
  entities : List Entity
  args : List String
deriving DecidableEq, Repr

/-- Tags naming the user-visible texts the handlers emit. -/
inductive ReplyTag where
  | helloRole
  | notAuthorizedSetRole
  | notAuthorizedRemove
  | usageSetRole
  | couldNotFindUser
  | needTargetSetRole
  | cannotChangeOwnerRole
  | roleSet
  | onlyOwnerOrAdminSetsAdmins
  | notAuthorizedMute
  | usageMute
  | muteResolveHint
  | needTargetMute
  | adminsCannotBeMuted
  | moderatorsCannotMuteModerators
  | invalidDuration
  | mutedOk
  | notAuthorizedUnmute
  | usageUnmute
  | unmuteResolveHint
  | needTargetUnmute
  | unmutedOk
  | notCurrentlyMuted
  | notAuthorizedKick
  | usageKick
  | kickResolveHint
  | needTargetKick
  | adminsCannotBeKicked
  | ownerCannotBeKicked
  | kickedOk
  | notAuthorizedSpamToggle
  | spamToggled
  | notAuthorizedAutoToggle
  | autoToggled
  | usageReport
  | couldNotIdentifyReport
  | provideReason
  | couldNotDetermineReport
  | cannotReportSelf
  | cannotReportPrivileged
  | reportSubmitted
  | keywordRemoved
  | notAuthorizedList
  | listReportsOutput
  | notAuthorizedClear
  | usageClearReports
  | couldNotParseClear
  | couldNotIdentifyClear
  | reportsCleared
  | noReportsToClear
deriving DecidableEq, Repr

/-- Tags naming the chat-wide announcements `context.bot.send_message`
emits from the modelled handlers. -/
inductive ChatMsgTag where
  | spamAutoMuted
  | autoKicked
  | autoMuted
  | autoMuteMisconfigured
deriving DecidableEq, Repr

/-- Outbound SDK calls, recorded in emission order. -/
inductive Effect where
  | deleteMessage
  | replyText (tag : ReplyTag)
  | sendMessage (chat_id : Nat) (tag : ChatMsgTag)
  | notifyChatAdmins (chat_id : Nat)
  | kickChatMember (chat_id user_id : Nat)
deriving DecidableEq, Repr

/-! ### Target-user resolution

The handlers share a resolution idiom (reply target, then the first
`text_mention` entity, then the argument parsed as an integer), with small
per-handler variations reproduced below.  Python stores the target in a
variable that is `None` or an `int` and tests it with falsiness (`if not
target_user_id`); since `0` is falsy, an id of `0` behaves exactly like an
unresolved target, and the model uses `0` for "unset" where the source
does. -/

/-- Outcome of a resolution attempt: a target id, a `ValueError` from
`int()` (which the handlers answer with a format hint), or no target at
all. -/
inductive Resolved where
  | ok (uid : Nat)
  | parseError
  | noTarget
deriving DecidableEq, Repr

/-- Python `int(arg)` for the nonnegative-decimal arguments the handlers
pass (signed, underscored or whitespace-padded forms would either raise or
produce ids outside the modelled nonnegative range). -/
def py_int (a : String) : Option Nat :=
  if a.data ≠ [] ∧ a.data.all Char.isDigit then some (str_to_nat a.data) else none

/-- Does the string start with `@` (Python `startswith('@')`)? -/
def starts_with_at (u : String) : Bool :=
  match u.data with
  | '@' :: _ => true
  | _ => false

/-- Strip a single leading `@`, as `set_role_command` does (lines 94-95). -/
def strip_at (u : String) : String :=
  match u.data with
  | '@' :: rest => String.mk rest
  | _ => u

/-- First `text_mention` entity of the update, as the entity loops of
`set_role_command`/`mute_user`/`unmute_user`/`kick_user` select (they
`break` on the first `text_mention`, without comparing it to the
argument). -/
def first_text_mention (es : List Entity) : Option Entity :=
  es.find? fun e => e.etype == EntityType.text_mention

/-- First `text_mention` entity whose covered text, or `"@" + username`,
equals the argument — the matching loop of `report_user` (line 500) and
`list_reports`/`clear_reports`. -/
def matching_text_mention (es : List Entity) (arg0 : String) : Option Entity :=
  es.find? fun e =>
    e.etype == EntityType.text_mention && (e.text == arg0 || ("@" ++ e.username) == arg0)

/-- Resolution used by `mute_user`/`unmute_user`/`kick_user` (e.g. lines
186-217): the replied-to user if the command is a reply; otherwise the
first `text_mention` entity; otherwise `int(arg)`.  The `int` fallback sits
inside the no-reply branch, so a reply resolving to the falsy id `0` ends
with no target. -/
def resolve_common (m : MsgContext) (arg : String) : Resolved :=
  match m.reply_to_user with
  | some uid => if uid = 0 then .noTarget else .ok uid
  | none =>
    if arg ≠ "" then
      let t := ((first_text_mention m.entities).map Entity.user_id).getD 0
      if t ≠ 0 then .ok t
      else
        match py_int arg with
        | some uid => if uid = 0 then .noTarget else .ok uid
        | none => .parseError
    else .noTarget

/-- Resolution used by `set_role_command` (lines 100-137): reply, then
first `text_mention`, then `int(arg)`; here the `int` fallback is at top
level, so it also runs after a reply or mention that resolved to the falsy
id `0`. -/
def resolve_set_role (m : MsgContext) (username_to_set : String) : Resolved :=
  let t1 : Nat :=
    match m.reply_to_user with
    | some uid => uid
    | none => ((first_text_mention m.entities).map Entity.user_id).getD 0
  if t1 ≠ 0 then .ok t1
  else if username_to_set ≠ "" then
    match py_int username_to_set with
    | some uid => if uid = 0 then .noTarget else .ok uid
    | none => .parseError
  else .noTarget

/-- Resolution used by `list_reports`/`clear_reports` (lines 631-652,
692-713): the reply target is honoured only when the argument does not
start with `@`; otherwise the first matching `text_mention`, then
`int(arg)`. -/
def resolve_reportlike (m : MsgContext) (arg0 : String) : Resolved :=
  if m.reply_to_user.isSome ∧ ¬ starts_with_at arg0 = true then
    match m.reply_to_user with
    | some uid => if uid = 0 then .noTarget else .ok uid
    | none => .noTarget
  else if arg0 ≠ "" then
    let t := ((matching_text_mention m.entities arg0).map Entity.user_id).getD 0
    if t ≠ 0 then .ok t
    else
      match py_int arg0 with
      | some uid => if uid = 0 then .noTarget else .ok uid
      | none => .parseError
  else .noTarget

/-! ### Command handlers -/

/-- `start` (lines 58-75).  The two initialisation branches both leave the
owner's entry in this chat at ADMIN and touch nothing else; when the owner
is already ADMIN there, the (extensionally identity) write is still
recorded, which is observationally the same. -/
def start (s : BotState) (chat_id user_id : Nat) : BotState × List Effect :=
  if user_id = BOT_OWNER_ID then
    ({ s with user_roles := upd2 s.user_roles chat_id BOT_OWNER_ID (some ADMIN) },
     [.replyText .helloRole])
  else (s, [.replyText .helloRole])

/-- `set_role_command` (lines 77-148): authorization first, then argument
extraction, target resolution, the owner-protection check, and the write. -/
def set_role_command (s : BotState) (chat_id setter_id : Nat) (m : MsgContext)
    (role_to_set : Role) : BotState × List Effect :=
  if ¬ is_admin s chat_id setter_id ∧ (role_to_set = ADMIN ∨ role_to_set = MODERATOR) ∧
      ¬ (setter_id = BOT_OWNER_ID ∧ role_to_set = ADMIN) then
    (s, [.replyText .notAuthorizedSetRole])
  else if ¬ is_admin s chat_id setter_id ∧ role_to_set = USER then
    (s, [.replyText .notAuthorizedRemove])
  else
    match m.args with
    | [] => (s, [.replyText .usageSetRole])
    | arg0 :: _ =>
      match resolve_set_role m (strip_at arg0) with
      | .parseError => (s, [.replyText .couldNotFindUser])
      | .noTarget => (s, [.replyText .needTargetSetRole])
      | .ok target_user_id =>
        if target_user_id = BOT_OWNER_ID ∧ setter_id ≠ BOT_OWNER_ID then
          (s, [.replyText .cannotChangeOwnerRole])
        else
          ({ s with user_roles := upd2 s.user_roles chat_id target_user_id (some role_to_set) },
           [.replyText .roleSet])

/-- `set_admin` (lines 449-455): its own pre-check, then
`set_role_command` with ADMIN. -/
def set_admin (s : BotState) (chat_id setter_id : Nat) (m : MsgContext) :
    BotState × List Effect :=
  if setter_id ≠ BOT_OWNER_ID ∧ ¬ is_admin s chat_id setter_id then
    (s, [.replyText .onlyOwnerOrAdminSetsAdmins])
  else set_role_command s chat_id setter_id m ADMIN

/-- `set_moderator` (lines 457-458). -/
def set_moderator (s : BotState) (chat_id setter_id : Nat) (m : MsgContext) :
    BotState × List Effect :=
  set_role_command s chat_id setter_id m MODERATOR

/-- `remove_permission` (lines 460-461). -/
def remove_permission (s : BotState) (chat_id setter_id : Nat) (m : MsgContext) :
    BotState × List Effect :=
  set_role_command s chat_id setter_id m USER

/-- `mute_user` (lines 170-243).  Python rejects a parsed `timedelta` of
zero as invalid too (`if not duration:` is true for `timedelta(0)`). -/
def mute_user (s : BotState) (chat_id muter_id : Nat) (m : MsgContext) (now : Nat) :
    BotState × List Effect :=
  if ¬ is_moderator s chat_id muter_id then (s, [.replyText .notAuthorizedMute])
  else
    match m.args with
    | arg0 :: duration_str :: _ =>
      match resolve_common m arg0 with
      | .parseError => (s, [.replyText .muteResolveHint])
      | .noTarget => (s, [.replyText .needTargetMute])
      | .ok target_user_id =>
        let target_role := get_user_role s chat_id target_user_id
        if target_role = ADMIN ∧ muter_id ≠ BOT_OWNER_ID then
          (s, [.replyText .adminsCannotBeMuted])
        else if target_role = MODERATOR ∧ ¬ is_admin s chat_id muter_id then
          (s, [.replyText .moderatorsCannotMuteModerators])
        else
          match parse_duration duration_str with
          | none => (s, [.replyText .invalidDuration])
          | some d =>
            if d = 0 then (s, [.replyText .invalidDuration])
            else
              ({ s with muted_users := upd2 s.muted_users chat_id target_user_id (some (now + d)) },
               [.replyText .mutedOk])
    | _ => (s, [.replyText .usageMute])

/-- `unmute_user` (lines 245-300). -/
def unmute_user (s : BotState) (chat_id unmuter_id : Nat) (m : MsgContext) :
    BotState × List Effect :=
  if ¬ is_moderator s chat_id unmuter_id then (s, [.replyText .notAuthorizedUnmute])
  else
    match m.args with
    | [] => (s, [.replyText .usageUnmute])
    | arg0 :: _ =>
      match resolve_common m arg0 with
      | .parseError => (s, [.replyText .unmuteResolveHint])
      | .noTarget => (s, [.replyText .needTargetUnmute])
      | .ok target_user_id =>
        match s.muted_users chat_id target_user_id with
        | some _ =>
          ({ s with muted_users := upd2 s.muted_users chat_id target_user_id none },
           [.replyText .unmutedOk])
        | none => (s, [.replyText .notCurrentlyMuted])

/-- `kick_user` (lines 378-446): admin-only; ADMIN targets only by the
owner; the owner cannot be kicked by a non-owner.  It mutates no map; the
kick itself is an outbound call (assumed to succeed, as everywhere in the
model). -/
def kick_user (s : BotState) (chat_id kicker_id : Nat) (m : MsgContext) :
    BotState × List Effect :=
  if ¬ is_admin s chat_id kicker_id then (s, [.replyText .notAuthorizedKick])
  else
    match m.args with
    | [] => (s, [.replyText .usageKick])
    | arg0 :: _ =>
      match resolve_common m arg0 with
      | .parseError => (s, [.replyText .kickResolveHint])
      | .noTarget => (s, [.replyText .needTargetKick])
      | .ok target_user_id =>
        if get_user_role s chat_id target_user_id = ADMIN ∧ kicker_id ≠ BOT_OWNER_ID then
          (s, [.replyText .adminsCannotBeKicked])
        else if target_user_id = BOT_OWNER_ID ∧ kicker_id ≠ BOT_OWNER_ID then
          (s, [.replyText .ownerCannotBeKicked])
        else
          (s, [.kickChatMember chat_id target_user_id, .replyText .kickedOk])

/-- `toggle_spam_protection` (lines 464-476). -/
def toggle_spam_protection (s : BotState) (chat_id user_id : Nat) :
    BotState × List Effect :=
  if ¬ is_admin s chat_id user_id then (s, [.replyText .notAuthorizedSpamToggle])
  else
    ({ s with spam_protection_enabled := !s.spam_protection_enabled },
     [.replyText .spamToggled])

/-- `toggle_auto_actions` (lines 729-742). -/
def toggle_auto_actions (s : BotState) (chat_id user_id : Nat) :
    BotState × List Effect :=
  if ¬ is_admin s chat_id user_id then (s, [.replyText .notAuthorizedAutoToggle])
  else
    ({ s with enable_auto_actions_on_reports := !s.enable_auto_actions_on_reports },
     [.replyText .autoToggled])

/-! ### Reporting and escalation -/

/-- The body of `report_user` once the target id and reason words are in
hand (lines 522-597): reason check, falsy-target check, self-report and
privileged-target rejections, then the append, notifications and the
threshold-driven auto-actions.  `num_reports` is the length after the
append; the kick branch clears the target's report log; the mute branch
stores `now` plus the parsed fixed duration. -/
def report_core (s : BotState) (chat_id reporter_id target_user_id : Nat)
    (reason_parts : List String) (current_time : Nat) : BotState × List Effect :=
  if reason_parts = [] then (s, [.replyText .provideReason])
  else if target_user_id = 0 then (s, [.replyText .couldNotDetermineReport])
  else if target_user_id = reporter_id then (s, [.replyText .cannotReportSelf])
  else
    let reported_user_role := get_user_role s chat_id target_user_id
    if reported_user_role = ADMIN ∨ reported_user_role = MODERATOR then
      (s, [.replyText .cannotReportPrivileged])
    else
      let reports := s.user_reports chat_id target_user_id ++
        [⟨reporter_id, String.intercalate " " reason_parts, current_time⟩]
      let s1 := { s with user_reports := upd2 s.user_reports chat_id target_user_id reports }
      let num_reports := reports.length
      let base : List Effect := [.replyText .reportSubmitted, .notifyChatAdmins chat_id]
      if s.enable_auto_actions_on_reports ∧
          ¬ (reported_user_role = ADMIN ∨ reported_user_role = MODERATOR) then
        if num_reports ≥ REPORT_THRESHOLD_KICK then
          ({ s1 with user_reports := upd2 s1.user_reports chat_id target_user_id [] },
           base ++ [.kickChatMember chat_id target_user_id, .sendMessage chat_id .autoKicked])
        else if num_reports ≥ REPORT_THRESHOLD_MUTE then
          match parse_duration AUTO_MUTE_DURATION_ON_REPORTS with
          | some d =>
            if d ≠ 0 then
              ({ s1 with muted_users :=
                   (upd2 s1.muted_users chat_id target_user_id (some (current_time + d))) },
               base ++ [.sendMessage chat_id .autoMuted])
            else (s1, base ++ [.sendMessage chat_id .autoMuteMisconfigured])
          | none => (s1, base ++ [.sendMessage chat_id .autoMuteMisconfigured])
        else (s1, base)
      else (s1, base)

/-- The `int(arg)` fallback of `report_user`'s resolution (lines
504-517): a parsed id goes on to `report_core`, a `ValueError` yields the
identification error. -/
def report_via_int (s : BotState) (chat_id reporter_id : Nat) (arg0 : String)
    (rest : List String) (current_time : Nat) : BotState × List Effect :=
  match py_int arg0 with
  | some uid => report_core s chat_id reporter_id uid rest current_time
  | none => (s, [.replyText .couldNotIdentifyReport])

/-- `report_user` (lines 479-597): target/reason extraction (reply with
all args as reason; else first argument resolved through a matching
`text_mention`, falling back to `int` when absent or falsy, rest as
reason), then `report_core`. -/
def report_user (s : BotState) (chat_id reporter_id : Nat) (m : MsgContext)
    (current_time : Nat) : BotState × List Effect :=
  match m.reply_to_user with
  | some ruid => report_core s chat_id reporter_id ruid m.args current_time
  | none =>
    match m.args with
    | [] => (s, [.replyText .usageReport])
    | arg0 :: rest =>
      match (matching_text_mention m.entities arg0).map Entity.user_id with
      | some t =>
        if t ≠ 0 then report_core s chat_id reporter_id t rest current_time
        else report_via_int s chat_id reporter_id arg0 rest current_time
      | none => report_via_int s chat_id reporter_id arg0 rest current_time

/-- `list_reports` (lines 599-675) only reads state; its listing output is
abstracted to a single reply effect. -/
def list_reports (s : BotState) (chat_id admin_id : Nat) (_m : MsgContext) :
    BotState × List Effect :=
  if ¬ is_admin s chat_id admin_id then (s, [.replyText .notAuthorizedList])
  else (s, [.replyText .listReportsOutput])

/-- `clear_reports` (lines 677-727). -/
def clear_reports (s : BotState) (chat_id admin_id : Nat) (m : MsgContext) :
    BotState × List Effect :=
  if ¬ is_admin s chat_id admin_id then (s, [.replyText .notAuthorizedClear])
  else
    match m.args with
    | [] => (s, [.replyText .usageClearReports])
    | arg0 :: _ =>
      match resolve_reportlike m arg0 with
      | .parseError => (s, [.replyText .couldNotParseClear])
      | .noTarget => (s, [.replyText .couldNotIdentifyClear])
      | .ok target_user_id =>
        if s.user_reports chat_id target_user_id ≠ [] then
          ({ s with user_reports := upd2 s.user_reports chat_id target_user_id [] },
           [.replyText .reportsCleared])
        else (s, [.replyText .noReportsToClear])

/-! ### The message-handling pipeline -/

/-- Python's `in` on strings: the needle occurs as a contiguous substring
of the haystack. -/
def char_infix (needle : List Char) : List Char → Bool
  | [] => needle.isEmpty
  | c :: t => needle.isPrefixOf (c :: t) || char_infix needle t

/-- The keyword check of `handle_message` (line 349): some configured
keyword, lowercased, occurs as a substring of the lowercased text. -/
def contains_forbidden_keyword (text : String) : Bool :=
  forbidden_keywords.any fun keyword =>
    char_infix (keyword.data.map Char.toLower) (text.data.map Char.toLower)

/-- The existing-mute check at the tail of `handle_message` (lines
360-375): a live record suppresses (deletes) the message; an expired one
is lazily removed and the message passes through. -/
def mute_check (s : BotState) (chat_id user_id current_time : Nat) :
    BotState × List Effect :=
  match s.muted_users chat_id user_id with
  | some mute_end_time =>
    if current_time < mute_end_time then (s, [.deleteMessage])
    else ({ s with muted_users := upd2 s.muted_users chat_id user_id none }, [])
  | none => (s, [])

/-- `handle_message` (lines 302-375): for an enabled spam guard and an
unprivileged sender, append the timestamp, prune the window, and trigger
the rate limit when the count exceeds the cap; otherwise run the keyword
filter; only messages surviving both (or exempt from them) reach the
existing-mute check. -/
def handle_message (s : BotState) (chat_id user_id current_time : Nat) (text : String) :
    BotState × List Effect :=
  let user_role := get_user_role s chat_id user_id
  let is_privileged_user := user_role = ADMIN ∨ user_role = MODERATOR
  if s.spam_protection_enabled ∧ ¬ is_privileged_user then
    let window := (s.message_timestamps chat_id user_id ++ [current_time]).filter
      fun ts => current_time - ts < RATE_LIMIT_WINDOW_SECONDS
    let s1 := { s with message_timestamps := upd2 s.message_timestamps chat_id user_id window }
    if window.length > MAX_MESSAGES_PER_WINDOW then
      ({ s1 with muted_users :=
           (upd2 s1.muted_users chat_id user_id
             (some (current_time + SPAM_MUTE_DURATION_SECONDS))) },
       [.deleteMessage, .sendMessage chat_id .spamAutoMuted])
    else if contains_forbidden_keyword text then
      (s1, [.deleteMessage, .replyText .keywordRemoved])
    else mute_check s1 chat_id user_id current_time
  else mute_check s chat_id user_id current_time

/-! ### The event loop

One inbound event per registered handler (lines 747-760), stepped one at a
time. -/

/-- One inbound event, with the chat it arrives in, its sender (the
caller), and the handler-specific payload. -/
inductive Op where
  | start (chat_id user_id : Nat)
  | set_admin (chat_id setter_id : Nat) (m : MsgContext)
  | set_moderator (chat_id setter_id : Nat) (m : MsgContext)
  | remove_permission (chat_id setter_id : Nat) (m : MsgContext)
  | mute (chat_id muter_id : Nat) (m : MsgContext) (now : Nat)
  | unmute (chat_id unmuter_id : Nat) (m : MsgContext)
  | kick (chat_id kicker_id : Nat) (m : MsgContext)
  | toggle_spam (chat_id user_id : Nat)
  | report (chat_id reporter_id : Nat) (m : MsgContext) (now : Nat)
  | list_reports (chat_id admin_id : Nat) (m : MsgContext)
  | clear_reports (chat_id admin_id : Nat) (m : MsgContext)
  | toggle_auto (chat_id user_id : Nat)
  | message (chat_id user_id now : Nat) (text : String)
deriving DecidableEq, Repr

/-- The sender (`update.effective_user.id`) of an event. -/
def Op.caller : Op → Nat
  | .start _ u => u
  | .set_admin _ u _ => u
  | .set_moderator _ u _ => u
  | .remove_permission _ u _ => u
  | .mute _ u _ _ => u
  | .unmute _ u _ => u
  | .kick _ u _ => u
  | .toggle_spam _ u => u
  | .report _ u _ _ => u
  | .list_reports _ u _ => u
  | .clear_reports _ u _ => u
  | .toggle_auto _ u => u
  | .message _ u _ _ => u

/-- Dispatch one event to its handler and keep the resulting state. -/
def step (s : BotState) : Op → BotState
  | .start c u => (start s c u).1
  | .set_admin c u m => (set_admin s c u m).1
  | .set_moderator c u m => (set_moderator s c u m).1
  | .remove_permission c u m => (remove_permission s c u m).1
  | .mute c u m now => (mute_user s c u m now).1
  | .unmute c u m => (unmute_user s c u m).1
  | .kick c u m => (kick_user s c u m).1
  | .toggle_spam c u => (toggle_spam_protection s c u).1
  | .report c u m now => (report_user s c u m now).1
  | .list_reports c u m => (list_reports s c u m).1
  | .clear_reports c u m => (clear_reports s c u m).1
  | .toggle_auto c u => (toggle_auto_actions s c u).1
  | .message c u now text => (handle_message s c u now text).1

/-- Run a sequence of events from a state. -/
def run (s : BotState) (ops : List Op) : BotState :=
  ops.foldl step s

/-! ### Spec-side definitions, for refinement comparisons

These two definitions follow the specification's words, not the source;
they exist only to be compared against the source-derived definitions
above. -/

/-- The duration format the spec accepts (written from the spec's words,
for comparison with `parse_duration`): one or more decimal digits followed
by exactly one unit character from the set {m, h, d}. -/
def claimed_duration_form (s : String) : Bool :=
  !s.data.dropLast.isEmpty && s.data.dropLast.all Char.isDigit &&
    (s.data.getLastD ' ' == 'm' || s.data.getLastD ' ' == 'h' || s.data.getLastD ' ' == 'd')

/-- The uniform target resolution the spec describes (written from the
spec's words, for comparison with `resolve_common`/`resolve_set_role`):
the replied-to user; otherwise a linked mention entity matching the given
argument; otherwise the argument parsed as a numeric identifier. -/
def claimed_resolve (m : MsgContext) (arg : String) : Option Nat :=
  match m.reply_to_user with
  | some uid => some uid
  | none =>
    match matching_text_mention m.entities arg with
    | some e => some e.user_id
    | none => py_int arg

/-! ### Concrete states and contexts used to instantiate the theorems -/

/-- Chat 1: user 10 is a MODERATOR. -/
def modState : BotState :=
  { initialState with user_roles := upd2 initialState.user_roles 1 10 (some MODERATOR) }

/-- An update carrying a `text_mention` of user 99 that does not match the
numeric argument 42. -/
def mismatchCtx : MsgContext :=
  { reply_to_user := none,
    entities := [⟨EntityType.text_mention, "@alice", 99, "alice"⟩],
    args := ["42", "30m"] }

/-- Chat 1: user 7 already has four reports on file. -/
def fourReportsState : BotState :=
  { initialState with user_reports :=
      (upd2 initialState.user_reports 1 7
        [⟨51, "bad", 1⟩, ⟨52, "bad", 2⟩, ⟨53, "bad", 3⟩, ⟨54, "bad", 4⟩]) }

/-- Chat 1: user 7 already has two reports on file. -/
def twoReportsState : BotState :=
  { initialState with user_reports :=
      (upd2 initialState.user_reports 1 7 [⟨51, "bad", 1⟩, ⟨52, "bad", 2⟩]) }

/-- Chat 1: user 2 holds a mute record that expired at time 500. -/
def expiredMuteState : BotState :=
  { initialState with muted_users := upd2 initialState.muted_users 1 2 (some 500) }

/-- Chat 1: user 2 holds a live mute record until time 999999 and already
has five window timestamps just before time 1000. -/
def longMuteState : BotState :=
  { initialState with
      muted_users := upd2 initialState.muted_users 1 2 (some 999999),
      message_timestamps := upd2 initialState.message_timestamps 1 2 [995, 996, 997, 998, 999] }

/-- Chat 1: user 1 is an ADMIN. -/
def adminState : BotState :=
  { initialState with user_roles := upd2 initialState.user_roles 1 1 (some ADMIN) }

/-- Chat 1: spam protection off; user 2 muted until time 2000. -/
def spamOffMutedState : BotState :=
  { initialState with
      spam_protection_enabled := false,
      muted_users := upd2 initialState.muted_users 1 2 (some 2000) }

/-! ## Helper lemmas -/

theorem upd2_self {α : Type} (f : Nat → Nat → α) (c u : Nat) (v : α) :
    upd2 f c u v c u = v := by
  simp [upd2]

theorem upd2_other {α : Type} (f : Nat → Nat → α) (c u : Nat) (v : α) (c' u' : Nat)
    (h : ¬ (c' = c ∧ u' = u)) : upd2 f c u v c' u' = f c' u' := by
  simp only [upd2, if_neg h]

theorem dropLast_nil_length {α : Type} {l : List α} (h : l.dropLast = []) : l.length < 2 := by
  have := congrArg List.length h
  simp [List.length_dropLast] at this
  omega

theorem mk_data (cs : List Char) : (String.mk cs).data = cs := rfl

/-! ## Claim C2: `parse_duration` -/

/-- Claim C2, counterexample: the string "1H" is not of the claimed form
(its unit character is uppercase, outside {m, h, d}), so the claim demands
the invalid result; `parse_duration` nevertheless accepts it as one hour,
because the source lowercases the final character before matching. -/
theorem C2_counterexample :
    claimed_duration_form "1H" = false ∧ parse_duration "1H" = some 3600 := by
  constructor <;> rfl

/-- Claim C2 (amended): the unit character is matched case-insensitively.
For every non-empty digit string followed by one character whose lowercase
form is m, h or d, `parse_duration` returns exactly that many minutes,
hours or days (in seconds); every string that is empty or too short, has a
non-digit value part, or whose lowercased final character is none of m, h,
d, yields `none`. -/
theorem C2_parse_duration_characterization :
    (∀ (l : List Char) (u : Char), l ≠ [] → l.all Char.isDigit = true →
        u.toLower = 'm' ∨ u.toLower = 'h' ∨ u.toLower = 'd' →
        parse_duration (String.mk (l ++ [u])) =
          some ((if u.toLower = 'm' then 60 else if u.toLower = 'h' then 3600 else 86400) *
            str_to_nat l)) ∧
    (∀ s : String,
        s.data.dropLast = [] ∨ s.data.dropLast.all Char.isDigit = false ∨
          ((s.data.getLastD ' ').toLower ≠ 'm' ∧ (s.data.getLastD ' ').toLower ≠ 'h' ∧
            (s.data.getLastD ' ').toLower ≠ 'd') →
        parse_duration s = none) := by
  constructor
  · intro l u hne hdig hu
    have hlen : ¬ (String.mk (l ++ [u])).data.length < 2 := by
      cases l with
      | nil => exact absurd rfl hne
      | cons a t => simp
    unfold parse_duration
    rw [if_neg hlen]
    simp only [mk_data, List.dropLast_concat, List.getLastD_concat, hdig]
    rcases hu with h | h | h <;> simp [h]
  · intro s h
    unfold parse_duration
    by_cases hl : s.data.length < 2
    · rw [if_pos hl]
    · rw [if_neg hl]
      rcases h with h | h | h
      · exact absurd (dropLast_nil_length h) hl
      · rw [if_pos (by simp [h])]
      · by_cases hd : s.data.dropLast.all Char.isDigit = true
        · rw [if_neg (by simp [hd]), if_neg h.1, if_neg h.2.1, if_neg h.2.2]
        · rw [if_pos hd]

/-- Claim C2, witness for the amended characterization at the concrete
input "3h". -/
theorem C2_parse_duration_characterization_witness :
    parse_duration (String.mk (['3'] ++ ['h'])) =
      some ((if Char.toLower 'h' = 'm' then 60
        else if Char.toLower 'h' = 'h' then 3600 else 86400) * str_to_nat ['3']) :=
  C2_parse_duration_characterization.1 ['3'] 'h' (by decide) (by decide) (by decide)

/-! ## Claim C1: report escalation ordering -/

/-- Claim C1: for an accepted report (non-empty reason, resolved non-zero,
non-self target whose role is USER) with auto-actions enabled: when the
report count after the append reaches the kick threshold 5, the target is
kicked, the auto-mute branch is not taken (the mute map is left exactly as
it was, and no auto-mute announcement is sent), and the target's report
log for the chat is cleared; otherwise, when the count is at least the
mute threshold 3, a mute expiry of now + 2 hours (7200 s) is stored for
the target. -/
theorem C1_report_escalation (s : BotState) (c reporter t now : Nat)
    (reason_parts : List String)
    (hreason : reason_parts ≠ [])
    (ht0 : t ≠ 0) (hself : t ≠ reporter)
    (hrole : get_user_role s c t = USER)
    (hauto : s.enable_auto_actions_on_reports = true) :
    ((s.user_reports c t).length + 1 ≥ REPORT_THRESHOLD_KICK →
      (report_core s c reporter t reason_parts now).1.user_reports c t = [] ∧
      (report_core s c reporter t reason_parts now).1.muted_users = s.muted_users ∧
      Effect.kickChatMember c t ∈ (report_core s c reporter t reason_parts now).2 ∧
      Effect.sendMessage c ChatMsgTag.autoMuted ∉ (report_core s c reporter t reason_parts now).2) ∧
    ((s.user_reports c t).length + 1 < REPORT_THRESHOLD_KICK →
      (s.user_reports c t).length + 1 ≥ REPORT_THRESHOLD_MUTE →
      (report_core s c reporter t reason_parts now).1.muted_users c t = some (now + 7200)) := by
  have h2h : parse_duration AUTO_MUTE_DURATION_ON_REPORTS = some 7200 := by decide
  constructor
  · intro hk
    simp only [report_core, if_neg hreason, if_neg ht0, if_neg hself, hrole]
    simp only [List.length_append, List.length_cons, List.length_nil]
    rw [if_neg (by simp), if_pos (by simp [hauto]), if_pos (by omega)]
    refine ⟨upd2_self _ _ _ _, rfl, by simp, by simp⟩
  · intro hk hm
    simp only [report_core, if_neg hreason, if_neg ht0, if_neg hself, hrole]
    simp only [List.length_append, List.length_cons, List.length_nil]
    rw [if_neg (by simp), if_pos (by simp [hauto]), if_neg (by omega), if_pos (by omega), h2h]
    simp only [if_pos (by decide : (7200 : Nat) ≠ 0)]
    exact upd2_self _ _ _ _

/-- Claim C1, witness: with four prior reports against user 7, a fifth
accepted report kicks, clears the log and does not auto-mute. -/
theorem C1_report_escalation_witness :
    (report_core fourReportsState 1 20 7 ["spam"] 1000).1.user_reports 1 7 = [] ∧
    (report_core fourReportsState 1 20 7 ["spam"] 1000).1.muted_users =
      fourReportsState.muted_users ∧
    Effect.kickChatMember 1 7 ∈ (report_core fourReportsState 1 20 7 ["spam"] 1000).2 ∧
    Effect.sendMessage 1 ChatMsgTag.autoMuted ∉
      (report_core fourReportsState 1 20 7 ["spam"] 1000).2 :=
  (C1_report_escalation fourReportsState 1 20 7 1000 ["spam"] (by decide) (by decide)
    (by decide) (by decide) (by decide)).1 (by decide)

/-! ## Claim C3: the owner identity -/

theorem set_role_command_preserves_owner (s : BotState) (c' setter : Nat) (m : MsgContext)
    (r : Role) (h : setter ≠ BOT_OWNER_ID) (c : Nat) :
    (set_role_command s c' setter m r).1.user_roles c BOT_OWNER_ID =
      s.user_roles c BOT_OWNER_ID := by
  unfold set_role_command
  repeat' split
  all_goals try rfl
  rename_i hguard
  refine upd2_other _ _ _ _ _ _ ?_
  rintro ⟨rfl, hto⟩
  exact hguard ⟨hto.symm, h⟩

theorem report_core_preserves_roles (s : BotState) (c r t now : Nat) (rs : List String) :
    (report_core s c r t rs now).1.user_roles = s.user_roles := by
  unfold report_core
  repeat' first | split | dsimp only []
  all_goals rfl

theorem report_user_preserves_roles (s : BotState) (c r now : Nat) (m : MsgContext) :
    (report_user s c r m now).1.user_roles = s.user_roles := by
  unfold report_user report_via_int
  repeat' split
  all_goals first | rfl | apply report_core_preserves_roles

set_option maxHeartbeats 1600000 in
theorem step_preserves_owner_role (s : BotState) (op : Op)
    (h : Op.caller op ≠ BOT_OWNER_ID) (c : Nat) :
    (step s op).user_roles c BOT_OWNER_ID = s.user_roles c BOT_OWNER_ID := by
  cases op with
  | start c' u =>
    simp only [Op.caller] at h
    simp only [step, start]
    rw [if_neg h]
  | set_admin c' u m =>
    simp only [Op.caller] at h
    simp only [step, set_admin]
    split
    · rfl
    · exact set_role_command_preserves_owner s c' u m ADMIN h c
  | set_moderator c' u m =>
    simp only [Op.caller] at h
    exact set_role_command_preserves_owner s c' u m MODERATOR h c
  | remove_permission c' u m =>
    simp only [Op.caller] at h
    exact set_role_command_preserves_owner s c' u m USER h c
  | mute c' u m now =>
    simp only [step]
    unfold mute_user
    repeat' first | split | dsimp only []
    all_goals rfl
  | unmute c' u m =>
    simp only [step]
    unfold unmute_user
    repeat' first | split | dsimp only []
    all_goals rfl
  | kick c' u m =>
    simp only [step]
    unfold kick_user
    repeat' first | split | dsimp only []
    all_goals rfl
  | toggle_spam c' u =>
    simp only [step]
    unfold toggle_spam_protection
    split
    all_goals rfl
  | report c' u m now =>
    simp only [step]
    rw [report_user_preserves_roles]
  | list_reports c' u m =>
    simp only [step]
    unfold list_reports
    split
    all_goals rfl
  | clear_reports c' u m =>
    simp only [step]
    unfold clear_reports
    repeat' first | split | dsimp only []
    all_goals rfl
  | toggle_auto c' u =>
    simp only [step]
    unfold toggle_auto_actions
    split
    all_goals rfl
  | message c' u now text =>
    simp only [step]
    unfold handle_message mute_check
    repeat' first | split | dsimp only []
    all_goals rfl

/-- Claim C3, counterexample: the initial state is reachable (empty event
sequence), and there the role lookup for the bot-owner identity resolves
to USER, not ADMIN — the source's `get_user_role` has no owner special
case; the owner becomes ADMIN in a chat only via /start. -/
theorem C3_counterexample :
    get_user_role (run initialState []) 100 BOT_OWNER_ID = USER ∧ USER ≠ ADMIN := by
  exact ⟨rfl, by decide⟩

/-- Claim C3 (amended): no sequence of events whose callers are all
different from the owner ever changes the owner's stored role entry in any
chat; and once the owner issues /start in a chat, the role lookup for the
owner there resolves to ADMIN.  (The lookup is not ADMIN in every
reachable state: before such a /start it defaults to USER.) -/
theorem C3_owner_role_preservation :
    (∀ (s : BotState) (ops : List Op), (∀ op ∈ ops, Op.caller op ≠ BOT_OWNER_ID) →
      ∀ c, (run s ops).user_roles c BOT_OWNER_ID = s.user_roles c BOT_OWNER_ID) ∧
    (∀ (s : BotState) (c : Nat),
      get_user_role (step s (Op.start c BOT_OWNER_ID)) c BOT_OWNER_ID = ADMIN) := by
  constructor
  · intro s ops
    induction ops generalizing s with
    | nil => intro _ c; rfl
    | cons op rest ih =>
      intro h c
      have h1 := h op (List.mem_cons_self _ _)
      have h2 : ∀ o ∈ rest, Op.caller o ≠ BOT_OWNER_ID :=
        fun o ho => h o (List.mem_cons_of_mem _ ho)
      calc (run s (op :: rest)).user_roles c BOT_OWNER_ID
          = (run (step s op) rest).user_roles c BOT_OWNER_ID := rfl
        _ = (step s op).user_roles c BOT_OWNER_ID := ih (step s op) h2 c
        _ = s.user_roles c BOT_OWNER_ID := step_preserves_owner_role s op h1 c
  · intro s c
    simp [step, start, get_user_role, upd2]

/-- Claim C3, witness: a message event from a non-owner user leaves the
owner's role entry untouched. -/
theorem C3_owner_role_preservation_witness :
    (run initialState [Op.message 1 2 1000 "hi"]).user_roles 5 BOT_OWNER_ID =
      initialState.user_roles 5 BOT_OWNER_ID :=
  C3_owner_role_preservation.1 initialState [Op.message 1 2 1000 "hi"]
    (by intro op hop; simp at hop; subst hop; decide) 5

/-! ## Claim C4: mute expiry on inbound messages -/

theorem mute_check_effects (s : BotState) (c u now : Nat) :
    (mute_check s c u now).2 = [] ∨ (mute_check s c u now).2 = [Effect.deleteMessage] := by
  unfold mute_check
  repeat' split
  all_goals simp

theorem mute_check_msgts (s : BotState) (c u now : Nat) :
    (mute_check s c u now).1.message_timestamps = s.message_timestamps := by
  unfold mute_check
  repeat' split
  all_goals rfl

theorem mute_check_muted (s : BotState) (c u now : Nat) :
    (mute_check s c u now).1.muted_users c u = s.muted_users c u ∨
    (mute_check s c u now).1.muted_users c u = none := by
  unfold mute_check
  repeat' split
  · exact Or.inl rfl
  · exact Or.inr (upd2_self _ _ _ _)
  · exact Or.inl rfl

/-- Claim C4, counterexample: user 2 in chat 1 holds a mute record that
expired at time 500.  At time 1000 (at or past the expiry) the claim
requires the record to be removed and the message processed normally, but
a message containing a forbidden keyword is consumed by the keyword filter
before the mute check ever runs: the message is deleted with a warning and
the expired record survives. -/
theorem C4_counterexample :
    (500 : Nat) ≤ 1000 ∧
    (handle_message expiredMuteState 1 2 1000 "keyword1 hi").1.muted_users 1 2 = some 500 ∧
    (handle_message expiredMuteState 1 2 1000 "keyword1 hi").2 =
      [Effect.deleteMessage, Effect.replyText ReplyTag.keywordRemoved] := by
  refine ⟨by decide, by decide, by decide⟩

/-- Claim C4 (amended): the claimed mute-expiry behaviour holds for every
inbound text message that reaches the existing-mute check: from a
privileged sender or with spam protection disabled (first part), or from
an unprivileged sender under spam protection whose message neither trips
the rate limit nor contains a forbidden keyword (second part, where the
rate-limit window update also lands in the state).  In both parts: while
the current time is before the stored expiry the message is deleted and
nothing else happens; at or past the expiry the record is removed and the
message passes through with no effects. -/
theorem C4_mute_expiry (s : BotState) (c u now : Nat) (text : String) (e : Nat)
    (hmute : s.muted_users c u = some e) :
    ((get_user_role s c u = ADMIN ∨ get_user_role s c u = MODERATOR) ∨
        s.spam_protection_enabled = false →
      (now < e → handle_message s c u now text = (s, [Effect.deleteMessage])) ∧
      (¬ now < e → handle_message s c u now text =
        ({ s with muted_users := upd2 s.muted_users c u none }, []))) ∧
    (s.spam_protection_enabled = true → get_user_role s c u = USER →
      ((s.message_timestamps c u ++ [now]).filter
        (fun ts => now - ts < RATE_LIMIT_WINDOW_SECONDS)).length ≤ MAX_MESSAGES_PER_WINDOW →
      contains_forbidden_keyword text = false →
      (now < e → handle_message s c u now text =
        ({ s with
            message_timestamps := (upd2 s.message_timestamps c u
              ((s.message_timestamps c u ++ [now]).filter
                (fun ts => now - ts < RATE_LIMIT_WINDOW_SECONDS))) },
         [Effect.deleteMessage])) ∧
      (¬ now < e → handle_message s c u now text =
        ({ s with
            message_timestamps := (upd2 s.message_timestamps c u
              ((s.message_timestamps c u ++ [now]).filter
                (fun ts => now - ts < RATE_LIMIT_WINDOW_SECONDS))),
            muted_users := upd2 s.muted_users c u none }, []))) := by
  constructor
  · intro hskip
    have hcond : ¬ (s.spam_protection_enabled = true ∧
        ¬ (get_user_role s c u = ADMIN ∨ get_user_role s c u = MODERATOR)) := by
      rcases hskip with h | h
      · exact fun hc => hc.2 h
      · rw [h]; simp
    unfold handle_message
    dsimp only []
    rw [if_neg hcond]
    unfold mute_check
    rw [hmute]
    constructor
    · intro hlt
      dsimp only []
      rw [if_pos hlt]
    · intro hge
      dsimp only []
      rw [if_neg hge]
  · intro hspam hrole hlen hkw
    have hcond : s.spam_protection_enabled = true ∧
        ¬ (get_user_role s c u = ADMIN ∨ get_user_role s c u = MODERATOR) := by
      rw [hspam, hrole]; simp
    unfold handle_message
    dsimp only []
    rw [if_pos hcond, if_neg (by omega), if_neg (by rw [hkw]; simp)]
    unfold mute_check
    dsimp only []
    rw [hmute]
    constructor
    · intro hlt
      dsimp only []
      rw [if_pos hlt]
    · intro hge
      dsimp only []
      rw [if_neg hge]

/-- Claim C4, witness: with spam protection disabled and a live mute until
2000, a message at time 1000 is deleted and nothing else happens. -/
theorem C4_mute_expiry_witness :
    handle_message spamOffMutedState 1 2 1000 "hi" =
      (spamOffMutedState, [Effect.deleteMessage]) :=
  ((C4_mute_expiry spamOffMutedState 1 2 1000 "hi" 2000 (by decide)).1
    (Or.inr (by decide))).1 (by decide)

/-! ## Claim C5: spam rate-limiting -/

/-- Claim C5: with spam protection enabled and a USER-role sender, the
handler stores the appended-and-pruned window (entries older than 10 s
dropped), and exactly when the remaining count exceeds the cap 5 it
deletes the message, stores a mute expiry of now + 300 s, notifies the
chat, and stops (those two effects are the entire output); senders whose
role is ADMIN or MODERATOR skip the whole spam path — the handler degrades
to the bare mute check, the windows are untouched and no mute is ever
added for them by this path. -/
theorem C5_spam_rate_limit (s : BotState) (c u now : Nat) (text : String) :
    (s.spam_protection_enabled = true → get_user_role s c u = USER →
      ((handle_message s c u now text).1.message_timestamps c u =
        (s.message_timestamps c u ++ [now]).filter
          (fun ts => now - ts < RATE_LIMIT_WINDOW_SECONDS)) ∧
      (((s.message_timestamps c u ++ [now]).filter
          (fun ts => now - ts < RATE_LIMIT_WINDOW_SECONDS)).length > MAX_MESSAGES_PER_WINDOW →
        handle_message s c u now text =
          ({ s with
              message_timestamps := (upd2 s.message_timestamps c u
                ((s.message_timestamps c u ++ [now]).filter
                  (fun ts => now - ts < RATE_LIMIT_WINDOW_SECONDS))),
              muted_users := upd2 s.muted_users c u (some (now + SPAM_MUTE_DURATION_SECONDS)) },
           [Effect.deleteMessage, Effect.sendMessage c ChatMsgTag.spamAutoMuted])) ∧
      ((handle_message s c u now text).2 =
          [Effect.deleteMessage, Effect.sendMessage c ChatMsgTag.spamAutoMuted] ↔
        ((s.message_timestamps c u ++ [now]).filter
          (fun ts => now - ts < RATE_LIMIT_WINDOW_SECONDS)).length > MAX_MESSAGES_PER_WINDOW)) ∧
    (get_user_role s c u = ADMIN ∨ get_user_role s c u = MODERATOR →
      handle_message s c u now text = mute_check s c u now ∧
      (handle_message s c u now text).1.message_timestamps = s.message_timestamps ∧
      ((handle_message s c u now text).1.muted_users c u = s.muted_users c u ∨
        (handle_message s c u now text).1.muted_users c u = none)) := by
  constructor
  · intro hspam hrole
    have hcond : s.spam_protection_enabled = true ∧
        ¬ (get_user_role s c u = ADMIN ∨ get_user_role s c u = MODERATOR) := by
      rw [hspam, hrole]; simp
    unfold handle_message
    dsimp only []
    rw [if_pos hcond]
    by_cases hlen : ((s.message_timestamps c u ++ [now]).filter
        (fun ts => now - ts < RATE_LIMIT_WINDOW_SECONDS)).length > MAX_MESSAGES_PER_WINDOW
    · rw [if_pos hlen]
      exact ⟨upd2_self _ _ _ _, fun _ => rfl, fun _ => hlen, fun _ => rfl⟩
    · rw [if_neg hlen]
      refine ⟨?_, fun h => absurd h hlen, ?_⟩
      · by_cases hkw : contains_forbidden_keyword text = true
        · rw [if_pos hkw]
          exact upd2_self _ _ _ _
        · rw [if_neg hkw]
          rw [mute_check_msgts]
          exact upd2_self _ _ _ _
      · constructor
        · intro heff
          exfalso
          by_cases hkw : contains_forbidden_keyword text = true
          · rw [if_pos hkw] at heff
            simp at heff
          · rw [if_neg hkw] at heff
            rcases mute_check_effects ({ s with message_timestamps :=
                (upd2 s.message_timestamps c u ((s.message_timestamps c u ++ [now]).filter
                  (fun ts => now - ts < RATE_LIMIT_WINDOW_SECONDS))) }) c u now with h | h <;>
              rw [h] at heff <;> simp at heff
        · intro h
          exact absurd h hlen
  · intro hpriv
    have hcond : ¬ (s.spam_protection_enabled = true ∧
        ¬ (get_user_role s c u = ADMIN ∨ get_user_role s c u = MODERATOR)) :=
      fun hc => hc.2 hpriv
    have heq : handle_message s c u now text = mute_check s c u now := by
      unfold handle_message
      dsimp only []
      rw [if_neg hcond]
    refine ⟨heq, ?_, ?_⟩
    · rw [heq, mute_check_msgts]
    · rw [heq]
      exact mute_check_muted s c u now

/-- Claim C5, witness: user 2 in chat 1 (role USER) with five window
entries just before time 1000 sends a sixth message: the pruned window has
six entries, exceeding the cap, so the message is deleted, a 300 s mute is
stored and the chat is notified. -/
theorem C5_spam_rate_limit_witness :
    handle_message longMuteState 1 2 1000 "x" =
      ({ longMuteState with
          message_timestamps := (upd2 longMuteState.message_timestamps 1 2
            ((longMuteState.message_timestamps 1 2 ++ [1000]).filter
              (fun ts => 1000 - ts < RATE_LIMIT_WINDOW_SECONDS))),
          muted_users := upd2 longMuteState.muted_users 1 2
            (some (1000 + SPAM_MUTE_DURATION_SECONDS)) },
       [Effect.deleteMessage, Effect.sendMessage 1 ChatMsgTag.spamAutoMuted]) :=
  ((C5_spam_rate_limit longMuteState 1 2 1000 "x").1 (by decide) (by decide)).2.1 (by decide)

/-! ## Claim C6: `set_role_command` authorization -/

/-- Claim C6: granting ADMIN or MODERATOR requires an ADMIN caller, except
that the owner identity may grant ADMIN; setting USER requires an ADMIN
caller; a caller with neither qualification is rejected with a user-visible
reply and the state is left untouched (first part); a resolved target equal
to the owner is protected against every non-owner caller, again with a
reply and no mutation (second part); and an authorized call on a resolved,
non-owner-protected target stores exactly the requested role (third
part). -/
theorem C6_set_role_authorization (s : BotState) (c setter : Nat) (m : MsgContext)
    (role_to_set : Role) :
    (¬ is_admin s c setter = true → ¬ (setter = BOT_OWNER_ID ∧ role_to_set = ADMIN) →
      (set_role_command s c setter m role_to_set).1 = s ∧
      ∃ tag, (set_role_command s c setter m role_to_set).2 = [Effect.replyText tag]) ∧
    (∀ arg0 rest t, m.args = arg0 :: rest →
      resolve_set_role m (strip_at arg0) = Resolved.ok t →
      t = BOT_OWNER_ID → setter ≠ BOT_OWNER_ID →
      (set_role_command s c setter m role_to_set).1 = s ∧
      ∃ tag, (set_role_command s c setter m role_to_set).2 = [Effect.replyText tag]) ∧
    (∀ arg0 rest t, m.args = arg0 :: rest →
      (is_admin s c setter = true ∨ (setter = BOT_OWNER_ID ∧ role_to_set = ADMIN)) →
      resolve_set_role m (strip_at arg0) = Resolved.ok t →
      ¬ (t = BOT_OWNER_ID ∧ setter ≠ BOT_OWNER_ID) →
      set_role_command s c setter m role_to_set =
        ({ s with user_roles := upd2 s.user_roles c t (some role_to_set) },
         [Effect.replyText ReplyTag.roleSet])) := by
  refine ⟨?_, ?_, ?_⟩
  · intro h1 h2
    unfold set_role_command
    by_cases hr : role_to_set = ADMIN ∨ role_to_set = MODERATOR
    · rw [if_pos ⟨h1, hr, h2⟩]
      exact ⟨rfl, _, rfl⟩
    · have hu : role_to_set = USER := by cases role_to_set <;> simp_all
      rw [if_neg (fun hc => hr hc.2.1), if_pos ⟨h1, hu⟩]
      exact ⟨rfl, _, rfl⟩
  · intro arg0 rest t hargs hres hto hsetter
    unfold set_role_command
    by_cases hadm : is_admin s c setter = true
    · rw [if_neg (fun hc => hc.1 hadm), if_neg (fun hc => hc.1 hadm), hargs]
      dsimp only []
      rw [hres]
      dsimp only []
      rw [if_pos ⟨hto, hsetter⟩]
      exact ⟨rfl, _, rfl⟩
    · by_cases hr : role_to_set = ADMIN ∨ role_to_set = MODERATOR
      · rw [if_pos ⟨hadm, hr, fun how => hsetter how.1⟩]
        exact ⟨rfl, _, rfl⟩
      · have hu : role_to_set = USER := by cases role_to_set <;> simp_all
        rw [if_neg (fun hc => hr hc.2.1), if_pos ⟨hadm, hu⟩]
        exact ⟨rfl, _, rfl⟩
  · intro arg0 rest t hargs hauth hres hown
    have hg1 : ¬ (¬ is_admin s c setter = true ∧
        (role_to_set = ADMIN ∨ role_to_set = MODERATOR) ∧
        ¬ (setter = BOT_OWNER_ID ∧ role_to_set = ADMIN)) := by
      rcases hauth with h | h
      · exact fun hc => hc.1 h
      · exact fun hc => hc.2.2 h
    have hg2 : ¬ (¬ is_admin s c setter = true ∧ role_to_set = USER) := by
      rcases hauth with h | h
      · exact fun hc => hc.1 h
      · exact fun hc => absurd (h.2.symm.trans hc.2) (by decide)
    unfold set_role_command
    rw [if_neg hg1, if_neg hg2, hargs]
    dsimp only []
    rw [hres]
    dsimp only []
    rw [if_neg hown]

/-- Claim C6, witness: ADMIN user 1 grants MODERATOR to user 42 by numeric
id; the role map gains exactly that entry. -/
theorem C6_set_role_authorization_witness :
    set_role_command adminState 1 1
        { reply_to_user := none, entities := [], args := ["42"] } MODERATOR =
      ({ adminState with user_roles := upd2 adminState.user_roles 1 42 (some MODERATOR) },
       [Effect.replyText ReplyTag.roleSet]) :=
  (C6_set_role_authorization adminState 1 1
      { reply_to_user := none, entities := [], args := ["42"] } MODERATOR).2.2
    "42" [] 42 rfl (Or.inl (by decide)) (by decide) (by decide)

/-! ## Claim C7: `mute_user` authorization and expiry -/

/-- Claim C7: muting requires a MODERATOR-or-ADMIN caller (part one); an
ADMIN target is rejected for every caller other than the owner (part two);
a MODERATOR target is rejected for a non-ADMIN caller (part three); a
duration that fails to parse — or parses to zero, which Python's falsiness
check also rejects — is rejected (part four); a successful call stores
exactly now + duration as the expiry (part five); and in every case the
call either leaves the whole state untouched or is that successful write
(part six), so no rejection ever creates or modifies a mute record. -/
theorem C7_mute_authorization (s : BotState) (c muter : Nat) (m : MsgContext) (now : Nat) :
    (¬ is_moderator s c muter = true →
      mute_user s c muter m now = (s, [Effect.replyText ReplyTag.notAuthorizedMute])) ∧
    (∀ arg0 dstr rest t, is_moderator s c muter = true →
      m.args = arg0 :: dstr :: rest → resolve_common m arg0 = Resolved.ok t →
      get_user_role s c t = ADMIN → muter ≠ BOT_OWNER_ID →
      mute_user s c muter m now = (s, [Effect.replyText ReplyTag.adminsCannotBeMuted])) ∧
    (∀ arg0 dstr rest t, is_moderator s c muter = true →
      m.args = arg0 :: dstr :: rest → resolve_common m arg0 = Resolved.ok t →
      ¬ (get_user_role s c t = ADMIN ∧ muter ≠ BOT_OWNER_ID) →
      get_user_role s c t = MODERATOR → ¬ is_admin s c muter = true →
      mute_user s c muter m now =
        (s, [Effect.replyText ReplyTag.moderatorsCannotMuteModerators])) ∧
    (∀ arg0 dstr rest t, is_moderator s c muter = true →
      m.args = arg0 :: dstr :: rest → resolve_common m arg0 = Resolved.ok t →
      ¬ (get_user_role s c t = ADMIN ∧ muter ≠ BOT_OWNER_ID) →
      ¬ (get_user_role s c t = MODERATOR ∧ ¬ is_admin s c muter = true) →
      parse_duration dstr = none ∨ parse_duration dstr = some 0 →
      mute_user s c muter m now = (s, [Effect.replyText ReplyTag.invalidDuration])) ∧
    (∀ arg0 dstr rest t d, is_moderator s c muter = true →
      m.args = arg0 :: dstr :: rest → resolve_common m arg0 = Resolved.ok t →
      ¬ (get_user_role s c t = ADMIN ∧ muter ≠ BOT_OWNER_ID) →
      ¬ (get_user_role s c t = MODERATOR ∧ ¬ is_admin s c muter = true) →
      parse_duration dstr = some d → d ≠ 0 →
      mute_user s c muter m now =
        ({ s with muted_users := upd2 s.muted_users c t (some (now + d)) },
         [Effect.replyText ReplyTag.mutedOk])) ∧
    ((mute_user s c muter m now).1 = s ∨
      ∃ arg0 dstr rest t d, m.args = arg0 :: dstr :: rest ∧
        resolve_common m arg0 = Resolved.ok t ∧ parse_duration dstr = some d ∧ d ≠ 0 ∧
        (mute_user s c muter m now).1 =
          { s with muted_users := upd2 s.muted_users c t (some (now + d)) }) := by
  refine ⟨?_, ?_, ?_, ?_, ?_, ?_⟩
  · intro h
    unfold mute_user
    rw [if_pos h]
  · intro arg0 dstr rest t hmod hargs hres hrole hmuter
    unfold mute_user
    rw [if_neg (not_not_intro hmod), hargs]
    dsimp only []
    rw [hres]
    dsimp only []
    rw [if_pos ⟨hrole, hmuter⟩]
  · intro arg0 dstr rest t hmod hargs hres hnadm hrole hnadm2
    unfold mute_user
    rw [if_neg (not_not_intro hmod), hargs]
    dsimp only []
    rw [hres]
    dsimp only []
    rw [if_neg hnadm, if_pos ⟨hrole, hnadm2⟩]
  · intro arg0 dstr rest t hmod hargs hres hnadm hnmod hdur
    unfold mute_user
    rw [if_neg (not_not_intro hmod), hargs]
    dsimp only []
    rw [hres]
    dsimp only []
    rw [if_neg hnadm, if_neg hnmod]
    rcases hdur with h | h
    · rw [h]
    · rw [h]
      dsimp only []
      rw [if_pos rfl]
  · intro arg0 dstr rest t d hmod hargs hres hnadm hnmod hdur hd0
    unfold mute_user
    rw [if_neg (not_not_intro hmod), hargs]
    dsimp only []
    rw [hres]
    dsimp only []
    rw [if_neg hnadm, if_neg hnmod, hdur]
    dsimp only []
    rw [if_neg hd0]
  · unfold mute_user
    repeat' first | split | dsimp only []
    all_goals try exact Or.inl rfl
    exact Or.inr ⟨_, _, _, _, _, ‹_›, ‹_›, ‹_›, ‹_›, rfl⟩

/-- Claim C7, witness: MODERATOR user 10 mutes user 42 (given by numeric
id) for "30m"; the stored expiry is exactly 1000 + 1800 seconds. -/
theorem C7_mute_authorization_witness :
    mute_user modState 1 10 { reply_to_user := none, entities := [], args := ["42", "30m"] }
        1000 =
      ({ modState with muted_users := upd2 modState.muted_users 1 42 (some (1000 + 1800)) },
       [Effect.replyText ReplyTag.mutedOk]) :=
  (C7_mute_authorization modState 1 10
      { reply_to_user := none, entities := [], args := ["42", "30m"] } 1000).2.2.2.2.1
    "42" "30m" [] 42 1800 (by decide) rfl (by decide) (by decide) (by decide) (by decide)
    (by decide)

/-! ## Claim C8: target-user resolution -/

/-- Claim C8, counterexample: /mute is issued with the numeric argument 42
while the message carries a linked mention of user 99 whose text "@alice"
does not match the argument.  Under the claimed uniform resolution the
mention does not match, so the target would be 42; the code instead takes
the first `text_mention` unconditionally and mutes user 99, leaving 42
unmuted. -/
theorem C8_counterexample :
    claimed_resolve mismatchCtx "42" = some 42 ∧
    (mute_user modState 1 10 mismatchCtx 1000).1.muted_users 1 99 = some 2800 ∧
    (mute_user modState 1 10 mismatchCtx 1000).1.muted_users 1 42 = none := by
  refine ⟨by decide, by decide, by decide⟩

/-- Claim C8 (amended): mute/unmute/kick resolve the target as (1) the
replied-to user, (2) otherwise the first linked `text_mention` entity
regardless of whether it matches the given argument, (3) otherwise the
argument parsed as a numeric identifier (parts one to three; setRole
follows the same order, and only report — part eight — requires the
mention to match the argument); and whenever every resolution path fails,
each of the five commands replies with a user-facing error and mutates no
state (parts four to eight). -/
theorem C8_target_resolution :
    (∀ (m : MsgContext) (arg : String) (u : Nat),
        m.reply_to_user = some u → u ≠ 0 → resolve_common m arg = Resolved.ok u) ∧
    (∀ (m : MsgContext) (arg : String) (e : Entity),
        m.reply_to_user = none → arg ≠ "" →
        first_text_mention m.entities = some e → e.user_id ≠ 0 →
        resolve_common m arg = Resolved.ok e.user_id) ∧
    (∀ (m : MsgContext) (arg : String),
        m.reply_to_user = none → arg ≠ "" →
        first_text_mention m.entities = none →
        resolve_common m arg = (match py_int arg with
          | some uid => if uid = 0 then Resolved.noTarget else Resolved.ok uid
          | none => Resolved.parseError)) ∧
    (∀ (s : BotState) (c muter : Nat) (m : MsgContext) (now : Nat) (arg0 dstr : String)
        (rest : List String), m.args = arg0 :: dstr :: rest →
        resolve_common m arg0 = Resolved.parseError ∨
          resolve_common m arg0 = Resolved.noTarget →
        (mute_user s c muter m now).1 = s ∧
        ∃ tag, (mute_user s c muter m now).2 = [Effect.replyText tag]) ∧
    (∀ (s : BotState) (c caller : Nat) (m : MsgContext) (arg0 : String) (rest : List String),
        m.args = arg0 :: rest →
        resolve_common m arg0 = Resolved.parseError ∨
          resolve_common m arg0 = Resolved.noTarget →
        (unmute_user s c caller m).1 = s ∧
        ∃ tag, (unmute_user s c caller m).2 = [Effect.replyText tag]) ∧
    (∀ (s : BotState) (c caller : Nat) (m : MsgContext) (arg0 : String) (rest : List String),
        m.args = arg0 :: rest →
        resolve_common m arg0 = Resolved.parseError ∨
          resolve_common m arg0 = Resolved.noTarget →
        (kick_user s c caller m).1 = s ∧
        ∃ tag, (kick_user s c caller m).2 = [Effect.replyText tag]) ∧
    (∀ (s : BotState) (c setter : Nat) (m : MsgContext) (r : Role) (arg0 : String)
        (rest : List String), m.args = arg0 :: rest →
        resolve_set_role m (strip_at arg0) = Resolved.parseError ∨
          resolve_set_role m (strip_at arg0) = Resolved.noTarget →
        (set_role_command s c setter m r).1 = s ∧
        ∃ tag, (set_role_command s c setter m r).2 = [Effect.replyText tag]) ∧
    (∀ (s : BotState) (c reporter : Nat) (m : MsgContext) (now : Nat) (arg0 : String)
        (rest : List String),
        m.reply_to_user = none → m.args = arg0 :: rest →
        matching_text_mention m.entities arg0 = none → py_int arg0 = none →
        report_user s c reporter m now =
          (s, [Effect.replyText ReplyTag.couldNotIdentifyReport])) := by
  refine ⟨?_, ?_, ?_, ?_, ?_, ?_, ?_, ?_⟩
  · intro m arg u hreply hu
    unfold resolve_common
    rw [hreply]
    dsimp only []
    rw [if_neg hu]
  · intro m arg e hreply harg hment he
    unfold resolve_common
    rw [hreply]
    dsimp only []
    rw [if_pos harg, hment]
    simp only [Option.map_some', Option.getD_some]
    rw [if_pos he]
  · intro m arg hreply harg hment
    unfold resolve_common
    rw [hreply]
    dsimp only []
    rw [if_pos harg, hment]
    simp only [Option.map_none', Option.getD_none]
    rw [if_neg (fun h => h rfl)]
  · intro s c muter m now arg0 dstr rest hargs hres
    unfold mute_user
    by_cases hm : is_moderator s c muter = true
    · rw [if_neg (not_not_intro hm), hargs]
      dsimp only []
      rcases hres with h | h <;> rw [h] <;> exact ⟨rfl, _, rfl⟩
    · rw [if_pos hm]
      exact ⟨rfl, _, rfl⟩
  · intro s c caller m arg0 rest hargs hres
    unfold unmute_user
    by_cases hm : is_moderator s c caller = true
    · rw [if_neg (not_not_intro hm), hargs]
      dsimp only []
      rcases hres with h | h <;> rw [h] <;> exact ⟨rfl, _, rfl⟩
    · rw [if_pos hm]
      exact ⟨rfl, _, rfl⟩
  · intro s c caller m arg0 rest hargs hres
    unfold kick_user
    by_cases hm : is_admin s c caller = true
    · rw [if_neg (not_not_intro hm), hargs]
      dsimp only []
      rcases hres with h | h <;> rw [h] <;> exact ⟨rfl, _, rfl⟩
    · rw [if_pos hm]
      exact ⟨rfl, _, rfl⟩
  · intro s c setter m r arg0 rest hargs hres
    unfold set_role_command
    by_cases hg1 : ¬ is_admin s c setter = true ∧ (r = ADMIN ∨ r = MODERATOR) ∧
        ¬ (setter = BOT_OWNER_ID ∧ r = ADMIN)
    · rw [if_pos hg1]
      exact ⟨rfl, _, rfl⟩
    · rw [if_neg hg1]
      by_cases hg2 : ¬ is_admin s c setter = true ∧ r = USER
      · rw [if_pos hg2]
        exact ⟨rfl, _, rfl⟩
      · rw [if_neg hg2, hargs]
        dsimp only []
        rcases hres with h | h <;> rw [h] <;> exact ⟨rfl, _, rfl⟩
  · intro s c reporter m now arg0 rest hreply hargs hment hint
    unfold report_user
    rw [hreply]
    dsimp only []
    rw [hargs]
    dsimp only []
    rw [hment]
    simp only [Option.map_none']
    unfold report_via_int
    rw [hint]

/-- Claim C8, witness: /mute with the unparseable argument "abc" resolves
no target, replies with an error and leaves the state untouched. -/
theorem C8_target_resolution_witness :
    (mute_user initialState 1 10
        { reply_to_user := none, entities := [], args := ["abc", "30m"] } 5).1 =
      initialState ∧
    ∃ tag, (mute_user initialState 1 10
        { reply_to_user := none, entities := [], args := ["abc", "30m"] } 5).2 =
      [Effect.replyText tag] :=
  C8_target_resolution.2.2.2.1 initialState 1 10
    { reply_to_user := none, entities := [], args := ["abc", "30m"] } 5 "abc" "30m" []
    rfl (Or.inl (by decide))

/-! ## Claim C9: the keyword filter -/

/-- Claim C9: for a USER-role sender with spam protection enabled whose
message passed the rate limit, the keyword filter deletes the message and
sends a warning — those two effects and the window update being the whole
outcome — if and only if some configured forbidden keyword occurs as a
case-insensitive substring of the text; and the matching is substring, not
whole-word: "KEYWORD1" matches the keyword "keyword1" while the split
"key word" matches nothing. -/
theorem C9_keyword_filter (s : BotState) (c u now : Nat) (text : String)
    (hspam : s.spam_protection_enabled = true)
    (hrole : get_user_role s c u = USER)
    (hlen : ((s.message_timestamps c u ++ [now]).filter
      (fun ts => now - ts < RATE_LIMIT_WINDOW_SECONDS)).length ≤ MAX_MESSAGES_PER_WINDOW) :
    (handle_message s c u now text =
        ({ s with message_timestamps := (upd2 s.message_timestamps c u
            ((s.message_timestamps c u ++ [now]).filter
              (fun ts => now - ts < RATE_LIMIT_WINDOW_SECONDS))) },
         [Effect.deleteMessage, Effect.replyText ReplyTag.keywordRemoved]) ↔
      contains_forbidden_keyword text = true) ∧
    contains_forbidden_keyword "KEYWORD1" = true ∧
    contains_forbidden_keyword "key word" = false := by
  refine ⟨?_, by decide, by decide⟩
  have hcond : s.spam_protection_enabled = true ∧
      ¬ (get_user_role s c u = ADMIN ∨ get_user_role s c u = MODERATOR) := by
    rw [hspam, hrole]; simp
  unfold handle_message
  dsimp only []
  rw [if_pos hcond, if_neg (by omega)]
  constructor
  · intro heq
    by_cases hkw : contains_forbidden_keyword text = true
    · exact hkw
    · exfalso
      rw [if_neg hkw] at heq
      have heff := congrArg Prod.snd heq
      dsimp only [] at heff
      rcases mute_check_effects ({ s with message_timestamps :=
          (upd2 s.message_timestamps c u ((s.message_timestamps c u ++ [now]).filter
            (fun ts => now - ts < RATE_LIMIT_WINDOW_SECONDS))) }) c u now with h | h <;>
        rw [h] at heff <;> simp at heff
  · intro hkw
    rw [if_pos hkw]

/-- Claim C9, witness: a first message containing "spamlink.com" (passing
the rate limit) takes the keyword branch. -/
theorem C9_keyword_filter_witness :
    (handle_message initialState 1 2 1000 "Check spamlink.com" =
        ({ initialState with message_timestamps := (upd2 initialState.message_timestamps 1 2
            ((initialState.message_timestamps 1 2 ++ [1000]).filter
              (fun ts => 1000 - ts < RATE_LIMIT_WINDOW_SECONDS))) },
         [Effect.deleteMessage, Effect.replyText ReplyTag.keywordRemoved]) ↔
      contains_forbidden_keyword "Check spamlink.com" = true) ∧
    contains_forbidden_keyword "KEYWORD1" = true ∧
    contains_forbidden_keyword "key word" = false :=
  C9_keyword_filter initialState 1 2 1000 "Check spamlink.com" (by decide) (by decide)
    (by decide)

/-! ## Claim C10: the spam guard precedes the mute check -/

/-- Claim C10: because the spam guard runs before the existing-mute check,
an already-muted USER-role sender whose stored expiry e lies beyond
now + 300 and who exceeds the rate limit gets the stored expiry
overwritten to now + 300 — strictly earlier than e, shortening the mute —
and the pruned window including the fresh timestamp is stored, so
timestamps keep accumulating while muted. -/
theorem C10_spam_overwrites_mute (s : BotState) (c u now e : Nat) (text : String)
    (hspam : s.spam_protection_enabled = true)
    (hrole : get_user_role s c u = USER)
    (hmute : s.muted_users c u = some e)
    (hfuture : now + SPAM_MUTE_DURATION_SECONDS < e)
    (hlen : ((s.message_timestamps c u ++ [now]).filter
      (fun ts => now - ts < RATE_LIMIT_WINDOW_SECONDS)).length > MAX_MESSAGES_PER_WINDOW) :
    (handle_message s c u now text).1.muted_users c u =
      some (now + SPAM_MUTE_DURATION_SECONDS) ∧
    now + SPAM_MUTE_DURATION_SECONDS < e ∧
    (handle_message s c u now text).1.message_timestamps c u =
      (s.message_timestamps c u ++ [now]).filter
        (fun ts => now - ts < RATE_LIMIT_WINDOW_SECONDS) ∧
    now ∈ (handle_message s c u now text).1.message_timestamps c u := by
  have hcond : s.spam_protection_enabled = true ∧
      ¬ (get_user_role s c u = ADMIN ∨ get_user_role s c u = MODERATOR) := by
    rw [hspam, hrole]; simp
  unfold handle_message
  dsimp only []
  rw [if_pos hcond, if_pos hlen]
  refine ⟨upd2_self _ _ _ _, hfuture, upd2_self _ _ _ _, ?_⟩
  dsimp only []
  rw [upd2_self]
  refine List.mem_filter.mpr
    ⟨List.mem_append_right _ (List.mem_singleton_self now), by simp [RATE_LIMIT_WINDOW_SECONDS]⟩

/-- Claim C10, witness: user 2 muted until 999999 exceeds the rate limit
at time 1000; the stored expiry becomes 1300 < 999999 and the stored
window keeps the fresh timestamp. -/
theorem C10_spam_overwrites_mute_witness :
    (handle_message longMuteState 1 2 1000 "x").1.muted_users 1 2 =
      some (1000 + SPAM_MUTE_DURATION_SECONDS) ∧
    1000 + SPAM_MUTE_DURATION_SECONDS < 999999 ∧
    (handle_message longMuteState 1 2 1000 "x").1.message_timestamps 1 2 =
      (longMuteState.message_timestamps 1 2 ++ [1000]).filter
        (fun ts => 1000 - ts < RATE_LIMIT_WINDOW_SECONDS) ∧
    1000 ∈ (handle_message longMuteState 1 2 1000 "x").1.message_timestamps 1 2 :=
  C10_spam_overwrites_mute longMuteState 1 2 1000 999999 "x" (by decide) (by decide)
    (by decide) (by decide) (by decide)

end ModBot
